import Mathlib

/-! Shallow embedding of `drizzle-paginator`.

This file embeds the pagination logic of the `@skmirajbn/drizzle-paginator`
package (class `DrizzlePaginator` and the free function `withSqlPagination`)
and proves properties of it.  The embedding follows the newest source file
(the one containing `paginateDirectQuery` / `paginateSubqueryStyle`, version
1.0.8 of the package); the older copy of `index.ts` in the repository differs
only in predating the direct-query path and the optional `ORDER BY`.

Modelling conventions:
* JavaScript numbers that arise here are integral (page numbers, offsets and
  SQL `COUNT` values), so they are modelled by `Int`.  `NaN`, which the code
  can produce by applying `Number(...)` to a non-numeric count value, is
  modelled by `none` in `Option Int`.
* The database is not executed: `paginate` receives the values the awaited
  queries would have produced (the count result and the data result) as
  explicit arguments, reduced to the exact shape the code inspects.
* The `mapper` field installed by `map` is not modelled; rows are returned
  unmapped.  (The mapper only transforms each row, it does not change row
  counts or any metadata field.)
* The SQL statements built by the opaque/subquery path are modelled
  structurally (`OpaqueDataQuery`) together with a rendering function that
  mirrors the `sql` template text; the composable path is modelled as the
  trace of query-builder method calls (`QBOp`).
-/

/-- A JavaScript number as it occurs in this code: `some n` is the integral
value `n`, `none` is `NaN`. -/
abbrev JsNum := Option Int

/-- A JavaScript value found in a result row's `count` field, reduced to what
`Number(...)` does with it: `num n` is any value whose numeric conversion is
the integer `n` (e.g. the string `"95"` returned by postgres); `nonNumeric`
is any value whose numeric conversion is `NaN` (e.g. the string `"abc"`). -/
inductive JsVal where
  | num (n : Int)
  | nonNumeric
deriving DecidableEq, Repr

/-- The `Number(v)` conversion of a `count`-field value; `none` is `NaN`. -/
def jsNumberOf : JsVal → JsNum
  | .num n => some n
  | .nonNumeric => none

/-- Embedding of `String.prototype.toUpperCase`, restricted to ASCII, which is all the code
applies it to (the direction strings `"asc"` / `"desc"`). -/
def jsToUpperCase (s : String) : String := ⟨s.data.map Char.toUpper⟩

/-- Embedding of `String.prototype.toLowerCase`, restricted to ASCII, applied by the
direct-query path to the stored direction (`"ASC"` / `"DESC"`). -/
def jsToLowerCase (s : String) : String := ⟨s.data.map Char.toLower⟩

/-- Embedding of `Math.ceil(t / k)` for an integral `t` and an integral
`k ≥ 1`, the only way the code divides: `-(-t / k)` with Lean's floor division on `Int`.
(`paginate` clamps `itemsPerPage` to at least 1; every claim about
`withSqlPagination`'s `lastPage` assumes `perPage ≥ 1` as well.) -/
def mathCeilDiv (t k : Int) : Int := -(-t / k)

/-- Embedding of `Math.ceil(totalItems / itemsPerPage)` when `totalItems` may be `NaN`
(`NaN` propagates through division and `Math.ceil`). -/
def jsNumCeilDiv (t : JsNum) (k : Int) : JsNum := t.map (fun n => mathCeilDiv n k)

/-- The count-query result as the code inspects it: `none` when `hasRows`
fails (the result has no `rows` array), otherwise the list of rows, each
reduced to its optional `count` field (`none` when the field is absent). -/
abbrev CountResult := Option (List (Option JsVal))

/-- The data-query result of the subquery path as the code inspects it:
`none` when `hasRows` fails, otherwise the rows. -/
abbrev DataResult (α : Type) := Option (List α)

/-- The data result of the direct-query path, which the code probes first
with `Array.isArray` and then with `hasRows`. -/
inductive DirectDataResult (α : Type) where
  | arrayResult (rows : List α)
  | rowsResult (result : DataResult α)

/-- Embedding of the count extraction:
```
let totalItems = 0;
if (hasRows(countResult) && countResult.rows[0]?.count !== undefined) {
  totalItems = Number(countResult.rows[0].count);
}
```
The optional chain makes `rows[0]?.count` `undefined` both when `rows` is
empty and when the first row has no `count` field. -/
def extractTotal (countResult : CountResult) : JsNum :=
  match countResult with
  | none => some 0
  | some rows =>
    match rows.head? with
    | none => some 0
    | some none => some 0
    | some (some v) => jsNumberOf v

/-- Row extraction of the subquery path: `data = []` unless `hasRows`. -/
def extractRows (dataResult : DataResult α) : List α := dataResult.getD []

/-- Row extraction of the direct path (`Array.isArray`, else `hasRows`,
else `data` stays `[]`). -/
def extractDirectRows : DirectDataResult α → List α
  | .arrayResult rows => rows
  | .rowsResult result => extractRows result

/-- Which of the two recognized database shapes the constructor adapted. -/
inductive DbAdapterKind where
  | drizzleDb
  | postgresWrapped
deriving DecidableEq, Repr

/-- The shape of the database handle, as probed by the constructor:
`typeof db.execute === "function"`, and `isPostgresDb` (`"$client" in db`
with a callable `query`). -/
structure DbHandle where
  executeIsFunction : Bool
  clientQueryIsFunction : Bool
deriving DecidableEq, Repr

/-- The shape of the query object as probed by `isDrizzleQueryBuilder`
(callable `limit` and `offset` members). -/
structure QueryHandle where
  hasLimitMethod : Bool
  hasOffsetMethod : Bool
deriving DecidableEq, Repr

/-- Embedding of `isDrizzleQueryBuilder`: `"limit" in query && "offset" in query && ...`. -/
def isDrizzleQueryBuilder (q : QueryHandle) : Bool :=
  q.hasLimitMethod && q.hasOffsetMethod

/-- The mutable fields of a `DrizzlePaginator`, with their initializers. -/
structure DrizzlePaginator where
  currentPage : Int := 1
  itemsPerPage : Int := 10
  sortBy : Option String := none
  sortDirection : String := "ASC"
  allowedColumns : List String := []
  countColumn : String := "*"
  dbAdapter : DbAdapterKind := .drizzleDb
  isDirectQuery : Bool := false
deriving DecidableEq, Repr

/-- The message of the error thrown for an unrecognized database handle. -/
def unsupportedBackendMsg : String :=
  "Unsupported database implementation. Please provide a DrizzleDb or PostgreSQL database."

/-- The constructor: adapt the database handle (or throw), classify the
query, store the count column.  It performs no query execution. -/
def construct (db : DbHandle) (query : QueryHandle) (countColumn : String := "*") :
    Except String DrizzlePaginator :=
  if db.executeIsFunction then
    .ok { dbAdapter := .drizzleDb, isDirectQuery := isDrizzleQueryBuilder query,
          countColumn := countColumn }
  else if db.clientQueryIsFunction then
    .ok { dbAdapter := .postgresWrapped, isDirectQuery := isDrizzleQueryBuilder query,
          countColumn := countColumn }
  else
    .error unsupportedBackendMsg

namespace DrizzlePaginator

/-- Setter `page(page)`: `this.currentPage = Math.max(1, page)`. -/
def page (p : DrizzlePaginator) (n : Int) : DrizzlePaginator :=
  { p with currentPage := max 1 n }

/-- Setter `perPage(count)`: `this.itemsPerPage = Math.max(1, count)`. -/
def perPage (p : DrizzlePaginator) (n : Int) : DrizzlePaginator :=
  { p with itemsPerPage := max 1 n }

/-- Setter `orderBy(column, direction = "asc")`:
`this.sortBy = allowedColumns.length === 0 || allowedColumns.includes(column) ? column : "id"`,
`this.sortDirection = direction.toUpperCase()`. -/
def orderBy (p : DrizzlePaginator) (column : String) (direction : String := "asc") :
    DrizzlePaginator :=
  { p with
    sortBy := some (if p.allowedColumns.isEmpty || p.allowedColumns.contains column
                    then column else "id")
    sortDirection := jsToUpperCase direction }

/-- Setter `allowColumns(columns)`: `this.allowedColumns = columns`. -/
def allowColumns (p : DrizzlePaginator) (columns : List String) : DrizzlePaginator :=
  { p with allowedColumns := columns }

end DrizzlePaginator

/-- One call to a fluent setter of the paginator. -/
inductive SetterCall where
  | pageCall (n : Int)
  | perPageCall (n : Int)
  | orderByCall (column direction : String)
  | allowColumnsCall (columns : List String)
deriving DecidableEq, Repr

/-- Whether a setter call is a call to `orderBy`. -/
def SetterCall.isOrderByCall : SetterCall → Bool
  | .orderByCall _ _ => true
  | _ => false

/-- Apply one setter call to the paginator state. -/
def applyCall (p : DrizzlePaginator) : SetterCall → DrizzlePaginator
  | .pageCall n => p.page n
  | .perPageCall n => p.perPage n
  | .orderByCall c d => p.orderBy c d
  | .allowColumnsCall cs => p.allowColumns cs

/-- Apply a sequence of fluent setter calls, left to right. -/
def applyCalls (p : DrizzlePaginator) (calls : List SetterCall) : DrizzlePaginator :=
  calls.foldl applyCall p

/-- The structure of the data statement built by the subquery path: the base
query embedded as a subquery, an optional `ORDER BY` clause (present exactly
when the `if (this.sortBy !== null)` branch is taken), `LIMIT` and
`OFFSET`. -/
structure OpaqueDataQuery where
  base : String
  order : Option (String × String)
  limit : Int
  offset : Int
deriving DecidableEq, Repr

/-- Build the subquery-path data statement from the paginator state
(`base` stands for the rendered base query text). -/
def buildOpaqueDataQuery (p : DrizzlePaginator) (base : String) (offset : Int) :
    OpaqueDataQuery :=
  { base := base
    order := p.sortBy.map (fun col => (col, p.sortDirection))
    limit := p.itemsPerPage
    offset := offset }

/-- Render the data statement to SQL text, following the two `sql` template
branches of `paginateSubqueryStyle` (whitespace normalized). -/
def renderOpaqueDataQuery (q : OpaqueDataQuery) : String :=
  "SELECT * FROM (" ++ q.base ++ ") as subquery" ++
    (match q.order with
     | some (col, dir) => " ORDER BY " ++ col ++ " " ++ dir
     | none => "") ++
    " LIMIT " ++ toString q.limit ++ " OFFSET " ++ toString q.offset

/-- Render of the count statement (shared by both paths). -/
def renderCountQuery (p : DrizzlePaginator) (base : String) : String :=
  "SELECT COUNT(" ++ p.countColumn ++ ") as count FROM (" ++ base ++ ") as subquery"

/-- One chained method call applied to a composable (direct) query. -/
inductive QBOp where
  | orderByOp (column direction : String)
  | limitOp (n : Int)
  | offsetOp (n : Int)
deriving DecidableEq, Repr

/-- The chain of query-builder calls the direct path applies to the base
query: `orderBy` only when `this.sortBy !== null`, then `limit`, then
`offset`. -/
def buildDirectDataOps (p : DrizzlePaginator) (offset : Int) : List QBOp :=
  (match p.sortBy with
   | some col => [QBOp.orderByOp col (jsToLowerCase p.sortDirection)]
   | none => []) ++ [QBOp.limitOp p.itemsPerPage, QBOp.offsetOp offset]

/-- The result envelope returned by `paginate`.  `total` and `lastPage` are
`JsNum` because `Number(...)` on a malformed count value yields `NaN`, which
then propagates into `lastPage`.  `from` is a Lean keyword, hence `from_`. -/
structure PaginationResult (α : Type) where
  data : List α
  total : JsNum
  perPage : Int
  currentPage : Int
  lastPage : JsNum
  from_ : Int
  to_ : Int
deriving DecidableEq

/-- Embedding of `paginateSubqueryStyle`, given the awaited results of the two queries. -/
def paginateSubqueryStyle (p : DrizzlePaginator) (offset : Int)
    (countResult : CountResult) (dataResult : DataResult α) : PaginationResult α :=
  let totalItems := extractTotal countResult
  let data := extractRows dataResult
  let totalPages := jsNumCeilDiv totalItems p.itemsPerPage
  { data := data
    total := totalItems
    perPage := p.itemsPerPage
    currentPage := p.currentPage
    lastPage := totalPages
    from_ := offset + 1
    to_ := offset + data.length }

/-- Embedding of `paginateDirectQuery`, given the awaited results of the two queries. -/
def paginateDirectQuery (p : DrizzlePaginator) (offset : Int)
    (countResult : CountResult) (dataResult : DirectDataResult α) : PaginationResult α :=
  let totalItems := extractTotal countResult
  let data := extractDirectRows dataResult
  let totalPages := jsNumCeilDiv totalItems p.itemsPerPage
  { data := data
    total := totalItems
    perPage := p.itemsPerPage
    currentPage := p.currentPage
    lastPage := totalPages
    from_ := offset + 1
    to_ := offset + data.length }

/-- The values the awaited database calls would produce, for either path. -/
structure DbResponses (α : Type) where
  countResult : CountResult
  subqueryDataResult : DataResult α
  directDataResult : DirectDataResult α

/-- Application of the `perPage !== undefined` override at the top of `paginate`:
`this.itemsPerPage = Math.max(1, perPage)`. -/
def applyPerPageOverride (p : DrizzlePaginator) : Option Int → DrizzlePaginator
  | some n => { p with itemsPerPage := max 1 n }
  | none => p

/-- Embedding of `paginate(perPage?)`: apply the override, compute the offset, and branch
on the classification fixed at construction. -/
def paginate (p : DrizzlePaginator) (perPageOverride : Option Int)
    (resp : DbResponses α) : PaginationResult α :=
  let q := applyPerPageOverride p perPageOverride
  let offset := (q.currentPage - 1) * q.itemsPerPage
  if q.isDirectQuery then
    paginateDirectQuery q offset resp.countResult resp.directDataResult
  else
    paginateSubqueryStyle q offset resp.countResult resp.subqueryDataResult

/-- Clamp one bound of `Array.prototype.slice`: a negative index counts from
the end (clamped at 0), a non-negative one is clamped at the length. -/
def jsSliceBound (len bound : Int) : Nat :=
  if bound < 0 then (len + bound).toNat else (min bound len).toNat

/-- Embedding of `Array.prototype.slice(start, stop)`: the elements with indices in
`[relStart, relStop)` after resolving both bounds. -/
def jsSlice (xs : List α) (start stop : Int) : List α :=
  let len : Int := xs.length
  (xs.take (jsSliceBound len stop)).drop (jsSliceBound len start)

/-- The `Pagination` envelope returned by `withSqlPagination` (all fields are
ordinary numbers there). -/
structure Pagination (α : Type) where
  data : List α
  total : Int
  perPage : Int
  currentPage : Int
  lastPage : Int
  from_ : Int
  to_ : Int
deriving DecidableEq

/-- Embedding of `withSqlPagination(queryResult, perPage, page)`; the query result is
reduced to its `rows` and its `rowCount` (`none` models a `null`
`rowCount`, which `?? 0` replaces by 0). -/
def withSqlPagination (rows : List α) (rowCount : Option Int)
    (perPage page : Int) : Pagination α :=
  let totalItems := rowCount.getD 0
  let offset := (page - 1) * perPage
  let data := jsSlice rows offset (offset + perPage)
  let totalPages := mathCeilDiv totalItems perPage
  { data := data
    total := totalItems
    perPage := perPage
    currentPage := page
    lastPage := totalPages
    from_ := offset + 1
    to_ := offset + data.length }

/-! Helper lemmas. -/

/-- The value `-(-t / k)` (the embedding of `Math.ceil(t / k)`) is the rational
ceiling of `t / k` whenever `k ≥ 1`. -/
theorem mathCeilDiv_eq_ceil (t k : Int) (hk : 1 ≤ k) :
    mathCeilDiv t k = ⌈(t : ℚ) / (k : ℚ)⌉ := by
  have hkt : ((k.toNat : ℕ) : ℚ) = (k : ℚ) := by
    norm_cast
    omega
  have h1 : ((t : ℚ) / (k : ℚ)) = -(((-t : ℤ) : ℚ) / ((k.toNat : ℕ) : ℚ)) := by
    rw [hkt]
    push_cast
    ring
  rw [h1, Int.ceil_neg, Rat.floor_intCast_div_natCast]
  have hkt2 : (k.toNat : ℤ) = k := Int.toNat_of_nonneg (by omega)
  rw [hkt2]
  rfl

/-! Claims. -/

/-- Projection: `paginate` returns the extracted count as `total`,
on both paths. -/
theorem paginate_total {α : Type} (p : DrizzlePaginator) (o : Option Int)
    (resp : DbResponses α) :
    (paginate p o resp).total = extractTotal resp.countResult := by
  by_cases h : (applyPerPageOverride p o).isDirectQuery = true <;>
    simp [paginate, paginateDirectQuery, paginateSubqueryStyle, h]

/-- Projection: `lastPage` is `Math.ceil(total / itemsPerPage)` with the
overridden per-page value, on both paths. -/
theorem paginate_lastPage {α : Type} (p : DrizzlePaginator) (o : Option Int)
    (resp : DbResponses α) :
    (paginate p o resp).lastPage =
      jsNumCeilDiv (extractTotal resp.countResult)
        (applyPerPageOverride p o).itemsPerPage := by
  by_cases h : (applyPerPageOverride p o).isDirectQuery = true <;>
    simp [paginate, paginateDirectQuery, paginateSubqueryStyle, h]

/-- Projection: `from` is `offset + 1`, on both paths. -/
theorem paginate_from {α : Type} (p : DrizzlePaginator) (o : Option Int)
    (resp : DbResponses α) :
    (paginate p o resp).from_ =
      ((applyPerPageOverride p o).currentPage - 1) *
        (applyPerPageOverride p o).itemsPerPage + 1 := by
  by_cases h : (applyPerPageOverride p o).isDirectQuery = true <;>
    simp [paginate, paginateDirectQuery, paginateSubqueryStyle, h]

/-- Projection: the returned rows, on both paths. -/
theorem paginate_data {α : Type} (p : DrizzlePaginator) (o : Option Int)
    (resp : DbResponses α) :
    (paginate p o resp).data =
      if (applyPerPageOverride p o).isDirectQuery then
        extractDirectRows resp.directDataResult
      else extractRows resp.subqueryDataResult := by
  by_cases h : (applyPerPageOverride p o).isDirectQuery = true <;>
    simp [paginate, paginateDirectQuery, paginateSubqueryStyle, h]

/-- Projection: `to` is `offset + data.length = from - 1 + data.length`,
on both paths. -/
theorem paginate_to (p : DrizzlePaginator) (o : Option Int)
    {α : Type} (resp : DbResponses α) :
    (paginate p o resp).to_ =
      (paginate p o resp).from_ - 1 + (paginate p o resp).data.length := by
  by_cases h : (applyPerPageOverride p o).isDirectQuery = true <;>
    simp [paginate, paginateDirectQuery, paginateSubqueryStyle, h]


/-- C1: For every `paginate` call whose effective page `p ≥ 1` and
effective per-page `k ≥ 1` (the state `q` after applying the per-page
override), and whose count query yields a well-formed total `t ≥ 0`: the
result has `total = t`, `lastPage = ⌈t / k⌉` (so `t = 0` gives
`lastPage = 0`), `from = (p − 1)·k + 1`, and `to − from + 1 = data.length`
when `data` is non-empty. -/
theorem paginate_metadata {α : Type} (p q : DrizzlePaginator) (o : Option Int)
    (resp : DbResponses α) (t : Int)
    (hq : applyPerPageOverride p o = q)
    (hp : 1 ≤ q.currentPage) (hk : 1 ≤ q.itemsPerPage)
    (ht : extractTotal resp.countResult = some t) (htn : 0 ≤ t) :
    (paginate p o resp).total = some t ∧
    (paginate p o resp).lastPage = some ⌈(t : ℚ) / (q.itemsPerPage : ℚ)⌉ ∧
    (t = 0 → (paginate p o resp).lastPage = some 0) ∧
    (paginate p o resp).from_ = (q.currentPage - 1) * q.itemsPerPage + 1 ∧
    ((paginate p o resp).data ≠ [] →
      (paginate p o resp).to_ - (paginate p o resp).from_ + 1 =
        (paginate p o resp).data.length) := by
  have hceil : mathCeilDiv t q.itemsPerPage = ⌈(t : ℚ) / (q.itemsPerPage : ℚ)⌉ :=
    mathCeilDiv_eq_ceil t q.itemsPerPage hk
  have htot : (paginate p o resp).total = some t := by
    rw [paginate_total, ht]
  have hlast : (paginate p o resp).lastPage = some (mathCeilDiv t q.itemsPerPage) := by
    rw [paginate_lastPage, ht, hq]
    rfl
  have hfrom : (paginate p o resp).from_ = (q.currentPage - 1) * q.itemsPerPage + 1 := by
    rw [paginate_from, hq]
  refine ⟨htot, ?_, ?_, hfrom, ?_⟩
  · rw [hlast, hceil]
  · intro h0
    rw [hlast, h0]
    simp [mathCeilDiv]
  · intro _
    rw [paginate_to, hfrom]
    omega

/-- Concrete paginator state for the `total = 95, perPage = 10, page = 10`
scenario. -/
def paginatorPage10 : DrizzlePaginator := { currentPage := 10, itemsPerPage := 10 }

/-- Concrete database responses: count row `95`, last data page of 5 rows. -/
def responses95 : DbResponses Nat :=
  { countResult := some [some (JsVal.num 95)]
    subqueryDataResult := some [91, 92, 93, 94, 95]
    directDataResult := DirectDataResult.arrayResult [] }

/-- Witness for C1 at page 10, perPage 10, total 95. -/
theorem paginate_metadata_witness :
    (paginate paginatorPage10 none responses95).total = some 95 ∧
    (paginate paginatorPage10 none responses95).lastPage =
      some ⌈(95 : ℚ) / ((10 : Int) : ℚ)⌉ ∧
    ((95 : Int) = 0 → (paginate paginatorPage10 none responses95).lastPage = some 0) ∧
    (paginate paginatorPage10 none responses95).from_ = ((10 : Int) - 1) * 10 + 1 ∧
    ((paginate paginatorPage10 none responses95).data ≠ [] →
      (paginate paginatorPage10 none responses95).to_ -
          (paginate paginatorPage10 none responses95).from_ + 1 =
        (paginate paginatorPage10 none responses95).data.length) :=
  paginate_metadata paginatorPage10 paginatorPage10 none responses95 95
    rfl (by decide) (by decide) (by decide) (by decide)

/-- A paginator in its initial state (all field initializers). -/
def freshPaginator : DrizzlePaginator := {}

/-- C3: Non-positive `page`/`perPage` inputs are silently clamped:
`page(n)` with `n ≤ 0` leaves the same state as `page(1)`, `perPage(n)` with
`n ≤ 0` the same state as `perPage(1)`, and the `paginate(n)` override with
`n ≤ 0` produces the same result as `paginate(1)`.  All three are total
functions: no error is raised. -/
theorem nonpositive_inputs_clamp_to_one {α : Type} (p : DrizzlePaginator) (n : Int)
    (hn : n ≤ 0) (resp : DbResponses α) :
    p.page n = p.page 1 ∧
    p.perPage n = p.perPage 1 ∧
    paginate p (some n) resp = paginate p (some 1) resp := by
  have h1 : max 1 n = (1 : Int) := by omega
  have hov : applyPerPageOverride p (some n) = applyPerPageOverride p (some 1) := by
    simp [applyPerPageOverride, h1]
  refine ⟨?_, ?_, ?_⟩
  · simp [DrizzlePaginator.page, h1]
  · simp [DrizzlePaginator.perPage, h1]
  · unfold paginate
    rw [hov]

/-- Witness for C3 at `n = -5` on a fresh paginator. -/
theorem nonpositive_inputs_clamp_to_one_witness :
    freshPaginator.page (-5) = freshPaginator.page 1 ∧
    freshPaginator.perPage (-5) = freshPaginator.perPage 1 ∧
    paginate freshPaginator (some (-5)) responses95 =
      paginate freshPaginator (some 1) responses95 :=
  nonpositive_inputs_clamp_to_one freshPaginator (-5) (by decide) responses95

/-- C4: `orderBy(column, direction)`: a non-empty allow-list not
containing the column substitutes the fallback `"id"`; an empty allow-list
or a listed column stores the column itself; the stored direction is always
the uppercased input, and no error is raised (the setter is total). -/
theorem orderBy_allowlist (p : DrizzlePaginator) (c d : String) :
    (p.allowedColumns ≠ [] → c ∉ p.allowedColumns → (p.orderBy c d).sortBy = some "id") ∧
    (p.allowedColumns = [] ∨ c ∈ p.allowedColumns → (p.orderBy c d).sortBy = some c) ∧
    (p.orderBy c d).sortDirection = jsToUpperCase d := by
  unfold DrizzlePaginator.orderBy
  refine ⟨?_, ?_, rfl⟩
  · intro hne hnm
    simp [hne, hnm]
  · rintro (h | h)
    · simp [h]
    · simp [h]

/-- Paginator with a configured allow-list, for the C4 witness. -/
def allowListPaginator : DrizzlePaginator := { allowedColumns := ["name", "email"] }

/-- Witness for C4: `"password"` is not in the allow-list `["name","email"]`
and is replaced by `"id"`; `"name"` is in it and is kept; the direction is
uppercased. -/
theorem orderBy_allowlist_witness :
    (allowListPaginator.orderBy "password" "desc").sortBy = some "id" ∧
    (allowListPaginator.orderBy "name" "desc").sortBy = some "name" ∧
    (allowListPaginator.orderBy "password" "desc").sortDirection = jsToUpperCase "desc" :=
  ⟨(orderBy_allowlist allowListPaginator "password" "desc").1 (by decide) (by decide),
   (orderBy_allowlist allowListPaginator "name" "desc").2.1 (Or.inr (by decide)),
   (orderBy_allowlist allowListPaginator "password" "desc").2.2⟩

/-- C10: `allowColumns` mutates only the `allowedColumns` field: every
other field of the state is unchanged, so in particular a sort column and
direction accepted by an earlier `orderBy` call are never revisited, whatever
the new list is. -/
theorem allowColumns_frame (p : DrizzlePaginator) (cs : List String) (c d : String) :
    (p.allowColumns cs).currentPage = p.currentPage ∧
    (p.allowColumns cs).itemsPerPage = p.itemsPerPage ∧
    (p.allowColumns cs).sortBy = p.sortBy ∧
    (p.allowColumns cs).sortDirection = p.sortDirection ∧
    (p.allowColumns cs).countColumn = p.countColumn ∧
    (p.allowColumns cs).dbAdapter = p.dbAdapter ∧
    (p.allowColumns cs).isDirectQuery = p.isDirectQuery ∧
    (p.allowColumns cs).allowedColumns = cs ∧
    ((p.orderBy c d).allowColumns cs).sortBy = (p.orderBy c d).sortBy ∧
    ((p.orderBy c d).allowColumns cs).sortDirection = (p.orderBy c d).sortDirection :=
  ⟨rfl, rfl, rfl, rfl, rfl, rfl, rfl, rfl, rfl, rfl⟩

/-- C5: Construction fails with the unsupported-backend error exactly
when the handle exposes neither a callable `execute` nor a `$client` with a
callable `query`, and succeeds (producing an instance) exactly when it
matches one of the two shapes.  `construct` is a pure function of the handle
shapes: no query is executed on either outcome. -/
theorem construct_backend_detection (db : DbHandle) (q : QueryHandle) (cc : String) :
    ((db.executeIsFunction = false ∧ db.clientQueryIsFunction = false) ↔
      construct db q cc = Except.error unsupportedBackendMsg) ∧
    ((db.executeIsFunction = true ∨ db.clientQueryIsFunction = true) ↔
      ∃ pag, construct db q cc = Except.ok pag) := by
  cases db with
  | mk e c => cases e <;> cases c <;> simp [construct]

/-- Setter sequences without an `orderBy` call leave `sortBy` untouched. -/
theorem applyCalls_sortBy_none (calls : List SetterCall) :
    ∀ p : DrizzlePaginator, (∀ call ∈ calls, call.isOrderByCall = false) →
      p.sortBy = none → (applyCalls p calls).sortBy = none := by
  induction calls with
  | nil =>
    intro p _ hp
    exact hp
  | cons c cs ih =>
    intro p h hp
    have hstep : (applyCall p c).sortBy = none := by
      have hc := h c (List.mem_cons_self c cs)
      cases c <;> simp_all [applyCall, DrizzlePaginator.page, DrizzlePaginator.perPage,
        DrizzlePaginator.allowColumns, SetterCall.isOrderByCall]
    exact ih (applyCall p c) (fun x hx => h x (List.mem_cons_of_mem c hx)) hstep

/-- C2: For a paginator constructed from any recognized handle on which
`orderBy` was never called: `sortBy` is still `none`, so the subquery-path
data statement carries no `ORDER BY` clause and renders to the plain
`SELECT … LIMIT … OFFSET …` text, and the composable-path call chain
contains no `orderBy` invocation. -/
theorem no_order_without_orderBy_call (db : DbHandle) (qh : QueryHandle) (cc : String)
    (p0 : DrizzlePaginator) (hc : construct db qh cc = Except.ok p0)
    (calls : List SetterCall) (hno : ∀ call ∈ calls, call.isOrderByCall = false)
    (base : String) (off : Int) :
    (applyCalls p0 calls).sortBy = none ∧
    (buildOpaqueDataQuery (applyCalls p0 calls) base off).order = none ∧
    renderOpaqueDataQuery (buildOpaqueDataQuery (applyCalls p0 calls) base off) =
      "SELECT * FROM (" ++ base ++ ") as subquery" ++ " LIMIT " ++
        toString (applyCalls p0 calls).itemsPerPage ++ " OFFSET " ++ toString off ∧
    (∀ col dir, QBOp.orderByOp col dir ∉ buildDirectDataOps (applyCalls p0 calls) off) := by
  have hp0 : p0.sortBy = none := by
    unfold construct at hc
    by_cases he : db.executeIsFunction = true
    · rw [if_pos he] at hc
      cases hc
      rfl
    · rw [if_neg he] at hc
      by_cases hq : db.clientQueryIsFunction = true
      · rw [if_pos hq] at hc
        cases hc
        rfl
      · rw [if_neg hq] at hc
        cases hc
  have hs : (applyCalls p0 calls).sortBy = none :=
    applyCalls_sortBy_none calls p0 hno hp0
  refine ⟨hs, ?_, ?_, ?_⟩
  · simp [buildOpaqueDataQuery, hs]
  · simp [renderOpaqueDataQuery, buildOpaqueDataQuery, hs]
  · intro col dir
    simp [buildDirectDataOps, hs]

/-- The state `construct ⟨true, false⟩ ⟨true, true⟩ "*"` produces. -/
def exampleConstructed : DrizzlePaginator :=
  { currentPage := 1, itemsPerPage := 10, sortBy := none, sortDirection := "ASC",
    allowedColumns := [], countColumn := "*", dbAdapter := .drizzleDb, isDirectQuery := true }

/-- A fluent-call sequence that never calls `orderBy`. -/
def exampleCalls : List SetterCall :=
  [SetterCall.pageCall 2, SetterCall.perPageCall 25, SetterCall.allowColumnsCall ["name"]]

/-- Witness for C2 on a concrete construction and call sequence. -/
theorem no_order_without_orderBy_call_witness :
    (applyCalls exampleConstructed exampleCalls).sortBy = none ∧
    (buildOpaqueDataQuery (applyCalls exampleConstructed exampleCalls)
      "SELECT * FROM users" 25).order = none ∧
    renderOpaqueDataQuery (buildOpaqueDataQuery (applyCalls exampleConstructed exampleCalls)
        "SELECT * FROM users" 25) =
      "SELECT * FROM (" ++ "SELECT * FROM users" ++ ") as subquery" ++ " LIMIT " ++
        toString (applyCalls exampleConstructed exampleCalls).itemsPerPage ++ " OFFSET " ++
        toString (25 : Int) ∧
    (∀ col dir, QBOp.orderByOp col dir ∉
      buildDirectDataOps (applyCalls exampleConstructed exampleCalls) 25) :=
  no_order_without_orderBy_call ⟨true, false⟩ ⟨true, true⟩ "*" exampleConstructed rfl
    exampleCalls (by decide) "SELECT * FROM users" 25

/-- Nat-level form of the slice window: taking up to the clamped stop bound
and dropping the clamped start bound is the drop/take window. -/
theorem take_drop_window {α : Type} (xs : List α) (A B : ℕ) :
    (xs.take (min (A + B) xs.length)).drop (min A xs.length) = (xs.drop A).take B := by
  rcases le_or_lt A xs.length with hA | hA
  · rw [min_eq_left hA, List.drop_take, List.take_eq_take, List.length_drop]
    omega
  · have h1 : min A xs.length = xs.length := by omega
    have h2 : min (A + B) xs.length = xs.length := by omega
    rw [h1, h2, List.take_length, List.drop_length,
      List.drop_eq_nil_of_le (le_of_lt hA), List.take_nil]

/-- For non-negative bounds, `slice(a, a + b)` is `drop a` then `take b`. -/
theorem jsSlice_nonneg {α : Type} (xs : List α) (a b : Int)
    (ha : 0 ≤ a) (hb : 0 ≤ b) :
    jsSlice xs a (a + b) = (xs.drop a.toNat).take b.toNat := by
  obtain ⟨A, rfl⟩ : ∃ A : ℕ, a = A := ⟨a.toNat, (Int.toNat_of_nonneg ha).symm⟩
  obtain ⟨B, rfl⟩ : ∃ B : ℕ, b = B := ⟨b.toNat, (Int.toNat_of_nonneg hb).symm⟩
  unfold jsSlice jsSliceBound
  have hA : ¬ ((A : Int) < 0) := by omega
  have hAB : ¬ ((A : Int) + (B : Int) < 0) := by omega
  simp only [if_neg hA, if_neg hAB]
  have h1 : (min ((A : Int) + (B : Int)) ((xs.length : Int))).toNat = min (A + B) xs.length := by
    omega
  have h2 : (min (A : Int) ((xs.length : Int))).toNat = min A xs.length := by
    omega
  have h3 : ((A : Int)).toNat = A := by omega
  have h4 : ((B : Int)).toNat = B := by omega
  rw [h1, h2, h3, h4]
  exact take_drop_window xs A B

/-- C7: For a materialized result set with declared total `n`, page size
`k ≥ 1` and page `p ≥ 1`, `withSqlPagination` returns the slice
`rows[(p−1)·k, (p−1)·k + k)`, passes the declared total through unchanged
(never recomputing it from the row count, even when inconsistent), and sets
`lastPage = ⌈n / k⌉`, `from = (p−1)·k + 1`, `to = (p−1)·k + data.length`. -/
theorem withSqlPagination_slices {α : Type} (rows : List α) (n k pg : Int)
    (hk : 1 ≤ k) (hp : 1 ≤ pg) :
    (withSqlPagination rows (some n) k pg).data =
      (rows.drop ((pg - 1) * k).toNat).take k.toNat ∧
    (withSqlPagination rows (some n) k pg).total = n ∧
    (withSqlPagination rows (some n) k pg).lastPage = ⌈(n : ℚ) / (k : ℚ)⌉ ∧
    (withSqlPagination rows (some n) k pg).from_ = (pg - 1) * k + 1 ∧
    (withSqlPagination rows (some n) k pg).to_ =
      (pg - 1) * k + ((withSqlPagination rows (some n) k pg).data).length := by
  have hoff : 0 ≤ (pg - 1) * k := mul_nonneg (by omega) (by omega)
  have hdata : (withSqlPagination rows (some n) k pg).data =
      (rows.drop ((pg - 1) * k).toNat).take k.toNat := by
    show jsSlice rows ((pg - 1) * k) ((pg - 1) * k + k) = _
    exact jsSlice_nonneg rows _ k hoff (by omega)
  refine ⟨hdata, rfl, ?_, rfl, rfl⟩
  show mathCeilDiv n k = _
  exact mathCeilDiv_eq_ceil n k hk

/-- Twenty-five materialized rows (`0, …, 24`). -/
def rows25 : List Nat := List.range 25

/-- Witness for C7: 25 rows, declared total 100 (inconsistent on purpose),
`perPage = 10`, `page = 3`. -/
theorem withSqlPagination_slices_witness :
    (withSqlPagination rows25 (some 100) 10 3).data =
      (rows25.drop (((3 : Int) - 1) * 10).toNat).take (10 : Int).toNat ∧
    (withSqlPagination rows25 (some 100) 10 3).total = 100 ∧
    (withSqlPagination rows25 (some 100) 10 3).lastPage = ⌈(100 : ℚ) / ((10 : Int) : ℚ)⌉ ∧
    (withSqlPagination rows25 (some 100) 10 3).from_ = ((3 : Int) - 1) * 10 + 1 ∧
    (withSqlPagination rows25 (some 100) 10 3).to_ =
      ((3 : Int) - 1) * 10 + ((withSqlPagination rows25 (some 100) 10 3).data).length :=
  withSqlPagination_slices rows25 100 10 3 (by decide) (by decide)

/-- C6 counterexample: With a count result whose first row carries a
`count` field that is present but not a valid numeric value, `paginate` does
not set `total` to 0: the stored total is the `NaN` that `Number(...)`
returns. -/
theorem malformed_count_counterexample :
    (paginate freshPaginator none
        { countResult := some [some JsVal.nonNumeric]
          subqueryDataResult := some ([] : List Nat)
          directDataResult := DirectDataResult.arrayResult [] }).total ≠ some 0 ∧
    (paginate freshPaginator none
        { countResult := some [some JsVal.nonNumeric]
          subqueryDataResult := some ([] : List Nat)
          directDataResult := DirectDataResult.arrayResult [] }).total = none := by
  exact ⟨by decide, by decide⟩

/-- C6 amended: `paginate` completes normally on every count-result
shape, and defaults `total` to 0 exactly when the check fails: no `rows`
array, empty `rows`, or a first row without a `count` field.  A `count`
field that is present but not a valid numeric value instead stores the `NaN`
produced by `Number(...)` (so `total` is `NaN`, not 0). -/
theorem malformed_count_soft_fallback {α : Type} (p : DrizzlePaginator)
    (o : Option Int) (resp : DbResponses α) :
    (resp.countResult = none → (paginate p o resp).total = some 0) ∧
    (resp.countResult = some [] → (paginate p o resp).total = some 0) ∧
    (∀ rest, resp.countResult = some (none :: rest) →
      (paginate p o resp).total = some 0) ∧
    (∀ rest, resp.countResult = some (some JsVal.nonNumeric :: rest) →
      (paginate p o resp).total = none) := by
  refine ⟨?_, ?_, ?_, ?_⟩
  · intro h
    rw [paginate_total, h]
    rfl
  · intro h
    rw [paginate_total, h]
    rfl
  · intro rest h
    rw [paginate_total, h]
    rfl
  · intro rest h
    rw [paginate_total, h]
    rfl

/-- Witness for the amended C6: a count result with no `rows` array gives
`total = 0`, and one with a non-numeric `count` gives `total = NaN`. -/
theorem malformed_count_soft_fallback_witness :
    (paginate freshPaginator none
        { countResult := none
          subqueryDataResult := some ([] : List Nat)
          directDataResult := DirectDataResult.arrayResult [] }).total = some 0 ∧
    (paginate freshPaginator none
        { countResult := some [some JsVal.nonNumeric, some (JsVal.num 7)]
          subqueryDataResult := some ([] : List Nat)
          directDataResult := DirectDataResult.arrayResult [] }).total = none :=
  ⟨(malformed_count_soft_fallback freshPaginator none _).1 rfl,
   (malformed_count_soft_fallback freshPaginator none _).2.2.2 [some (JsVal.num 7)] rfl⟩

/-- Projection: `withSqlPagination`'s `to` is `from − 1 + data.length`. -/
theorem withSqlPagination_to {α : Type} (rows : List α) (rc : Option Int) (k pg : Int) :
    (withSqlPagination rows rc k pg).to_ =
      (withSqlPagination rows rc k pg).from_ - 1 +
        ((withSqlPagination rows rc k pg).data).length := by
  simp only [withSqlPagination]
  ring

/-- C8: Every envelope produced by `paginate` (either path) or by
`withSqlPagination` satisfies `to − from + 1 = data.length` unconditionally;
for an empty page this degenerates to `to = from − 1` rather than `to = from`
or an error. -/
theorem window_arithmetic_invariant {α β : Type} (p : DrizzlePaginator)
    (o : Option Int) (resp : DbResponses α)
    (rows : List β) (rc : Option Int) (k pg : Int) :
    (paginate p o resp).to_ - (paginate p o resp).from_ + 1 =
      (paginate p o resp).data.length ∧
    ((paginate p o resp).data = [] →
      (paginate p o resp).to_ = (paginate p o resp).from_ - 1) ∧
    (withSqlPagination rows rc k pg).to_ - (withSqlPagination rows rc k pg).from_ + 1 =
      ((withSqlPagination rows rc k pg).data).length ∧
    ((withSqlPagination rows rc k pg).data = [] →
      (withSqlPagination rows rc k pg).to_ = (withSqlPagination rows rc k pg).from_ - 1) := by
  have h1 := paginate_to p o resp
  have h2 := withSqlPagination_to rows rc k pg
  refine ⟨by rw [h1]; omega, ?_, by rw [h2]; omega, ?_⟩
  · intro hd
    rw [h1, hd]
    simp
  · intro hd
    rw [h2, hd]
    simp

/-- Witness for C8 on concrete inputs, including an empty data page. -/
theorem window_arithmetic_invariant_witness :
    (paginate freshPaginator none responses95).to_ -
        (paginate freshPaginator none responses95).from_ + 1 =
      (paginate freshPaginator none responses95).data.length ∧
    ((paginate freshPaginator none responses95).data = [] →
      (paginate freshPaginator none responses95).to_ =
        (paginate freshPaginator none responses95).from_ - 1) ∧
    (withSqlPagination ([] : List Nat) (some 0) 10 1).to_ -
        (withSqlPagination ([] : List Nat) (some 0) 10 1).from_ + 1 =
      ((withSqlPagination ([] : List Nat) (some 0) 10 1).data).length ∧
    ((withSqlPagination ([] : List Nat) (some 0) 10 1).data = [] →
      (withSqlPagination ([] : List Nat) (some 0) 10 1).to_ =
        (withSqlPagination ([] : List Nat) (some 0) 10 1).from_ - 1) :=
  window_arithmetic_invariant freshPaginator none responses95 ([] : List Nat) (some 0) 10 1

/-- C9: `withSqlPagination` performs no clamping: for every `page` value,
including `page ≤ 0`, the returned `currentPage` is the argument verbatim and
`from = (page − 1)·perPage + 1`, which can be zero or negative — concretely,
`page = 0, perPage = 10` yields `from = −9`.  No correction to 1 is applied. -/
theorem withSqlPagination_no_clamping {α : Type} (rows : List α) (rc : Option Int)
    (k pg : Int) :
    (withSqlPagination rows rc k pg).currentPage = pg ∧
    (withSqlPagination rows rc k pg).from_ = (pg - 1) * k + 1 ∧
    (withSqlPagination ([] : List Nat) none 10 0).from_ = -9 :=
  ⟨rfl, rfl, by decide⟩
